import Mathlib

/-!
Shallow embedding of `src/web.py` (shapy web entry point).

The file models:
* the module-level configuration loading (lines 18-33): `os.environ.get`
  lookups and Python `int()` conversion, including its failure modes
  (`TypeError` for `int(None)`, `ValueError` for a malformed string);
* `IndexHandler` (lines 37-43): an `os.path.split` of the configured path
  at construction, and a `get` that ignores the captured request path and
  serves the fixed filename through the generic static-file logic;
* the route table and Tornado's first-match dispatch (lines 55-68):
  Tornado appends a final `$` to each pattern and matches with
  `re.match`, so a pattern without `$` is anchored at the start and must
  reach the end of the path (`$` also accepts a position just before a
  single trailing newline, and `.` never matches a newline — the model
  keeps this faithfully);
* the startup sequence of `main` (lines 47-78): configuration, then
  `Application` construction, then `momoko.Pool` construction (a pure
  value, no connectivity check), then `listen(PORT)`, then the loop.
-/

namespace Shapy

/-- The process environment: an association list of variable bindings,
looked up by name.  `envGet` models `os.environ.get(name)` returning
`None` when the variable is absent. -/
def Env : Type := List (String × String)

def envGet (env : Env) (k : String) : Option String :=
  (List.find? (fun kv => kv.1 == k) env).map (fun kv => kv.2)

/-- Python whitespace stripped by `int()`: space, tab, newline, carriage
return, vertical tab, form feed. -/
def pyIsSpace (c : Char) : Bool :=
  c == ' ' || c == '\t' || c == '\n' || c == '\r' || c == '\x0b' || c == '\x0c'

def digitsToNat : List Char → Nat
  | [] => 0
  | c :: cs => (c.toNat - '0'.toNat) * 10 ^ cs.length + digitsToNat cs

/-- Value of a nonempty, all-digit character list; `none` otherwise. -/
def natOfDigits (l : List Char) : Option Nat :=
  if l ≠ [] ∧ l.all Char.isDigit then some (digitsToNat l) else none

/-- Python 2 `int(s)` on a string: strip surrounding whitespace, allow one
leading sign, then require a nonempty run of decimal digits; any other
shape raises `ValueError` (modelled as `none`). -/
def pyStrToInt (s : String) : Option Int :=
  let l := ((s.toList.dropWhile pyIsSpace).reverse.dropWhile pyIsSpace).reverse
  match l with
  | '+' :: ds => (natOfDigits ds).map (fun n => (n : Int))
  | '-' :: ds => (natOfDigits ds).map (fun n => -(n : Int))
  | ds => (natOfDigits ds).map (fun n => (n : Int))

/-- The two exceptions Python `int()` can raise here. -/
inductive PyError where
  | typeError
  | valueError
deriving Repr, DecidableEq

/-- `int(os.environ.get(name))`: `int(None)` raises `TypeError`,
`int(<malformed>)` raises `ValueError`. -/
def pyIntOfGet : Option String → Except PyError Int
  | none => .error .typeError
  | some s =>
    match pyStrToInt s with
    | none => .error .valueError
    | some n => .ok n

/-- `int(os.environ.get(name, d))` with an integer default `d`: when the
variable is absent the default is already an `int` and conversion cannot
fail. -/
def pyIntOfGetD (d : Int) : Option String → Except PyError Int
  | none => .ok d
  | some s =>
    match pyStrToInt s with
    | none => .error .valueError
    | some n => .ok n

/-- Module-level configuration of `web.py`, lines 18-33. -/
structure Config where
  port : Int
  dbHost : Option String
  dbName : Option String
  dbUser : Option String
  dbPort : Int
  dbPass : Option String
  fbApiKey : Option String
  fbSecret : Option String
  cookieSecret : Option String
deriving Repr, DecidableEq

/-- Evaluation of lines 18-33 of `web.py` in order: `PORT` first (line 19),
then the database settings with `DB_PORT` converted by `int()` (line 25).
The plain `os.environ.get` reads never fail; they simply store `None` when
the variable is absent. -/
def loadConfig (env : Env) : Except PyError Config :=
  match pyIntOfGetD 8000 (envGet env "PORT") with
  | .error e => .error e
  | .ok port =>
    match pyIntOfGet (envGet env "DB_PORT") with
    | .error e => .error e
    | .ok dbPort =>
      .ok { port := port
            dbHost := envGet env "DB_HOST"
            dbName := envGet env "DB_NAME"
            dbUser := envGet env "DB_USER"
            dbPort := dbPort
            dbPass := envGet env "DB_PASS"
            fbApiKey := envGet env "FB_API_KEY"
            fbSecret := envGet env "FB_SECRET"
            cookieSecret := envGet env "COOKIE_SECRET" }

/-! ## URL patterns and first-match dispatch

Tornado's `URLSpec` appends `$` to a pattern that does not already end in
one, and `Application` matches each pattern against the request path with
`re.match`.  The patterns of this route table fall into three shapes:

* `r'/api/user/auth'` and the other literal API patterns become
  `literal$`: the path must be exactly the literal, except that `$` also
  accepts the position just before one trailing newline;
* `r'/css/(.*)'` (and `/js/`, `/html/`) becomes `lit(.*)$`: the path must
  start with the literal and the rest may be any characters other than a
  newline, again up to one trailing newline;
* `r'(.*)'` becomes `(.*)$`: any path of non-newline characters, up to one
  trailing newline.
-/

/-- Whether the Python regex fragment `(.*)$` matches character list `p`
in full (via `re.match`): `.` never matches a newline, and `$` accepts
the end of the string or the position just before a single trailing
newline. -/
def tailOK (p : List Char) : Bool :=
  !(p.contains '\n') || (p.getLast? == some '\n' && !(p.dropLast.contains '\n'))

/-- The three pattern shapes appearing in the route table of `main`. -/
inductive Pattern where
  | apiLiteral (t : String)
  | staticDir (t : String)
  | catchAll
deriving Repr, DecidableEq

/-- `re.match` of the `$`-terminated pattern against the whole request
path. -/
def patMatches (pat : Pattern) (p : String) : Bool :=
  match pat with
  | .apiLiteral t => p.toList == t.toList || p.toList == t.toList ++ ['\n']
  | .staticDir t => t.toList.isPrefixOf p.toList && tailOK (p.toList.drop t.toList.length)
  | .catchAll => tailOK p.toList

/-- The handler classes bound in the route table.  The API handlers live
in `shapy.user` / `shapy.editor` and are opaque here; the static handlers
carry their configured `path` option. -/
inductive Handler where
  | authHandler
  | loginHandler
  | logoutHandler
  | registerHandler
  | wsHandler
  | staticFileHandler (path : String)
  | indexHandler (path : String)
deriving Repr, DecidableEq

/-- The ordered route table passed to `tornado.web.Application` in `main`
(lines 55-68 of `web.py`). -/
def routes : List (Pattern × Handler) :=
  [ (.apiLiteral "/api/user/auth",     .authHandler),
    (.apiLiteral "/api/user/login",    .loginHandler),
    (.apiLiteral "/api/user/logout",   .logoutHandler),
    (.apiLiteral "/api/user/register", .registerHandler),
    (.apiLiteral "/api/sock",          .wsHandler),
    (.staticDir "/css/",  .staticFileHandler "client/css"),
    (.staticDir "/js/",   .staticFileHandler "client/js"),
    (.staticDir "/html/", .staticFileHandler "client/html"),
    (.catchAll,           .indexHandler "client/index.html") ]

/-- Tornado dispatch: scan the bindings in registration order and select
the first whose pattern matches the request path; `none` is the no-match
branch. -/
def dispatch (rs : List (Pattern × Handler)) (p : String) : Option Handler :=
  match rs with
  | [] => none
  | (pat, h) :: rest => if patMatches pat p then some h else dispatch rest p

/-! ## Static-file serving and `IndexHandler` -/

/-- The file system seen by the static handlers: a partial map from paths
to file bytes. -/
def FS : Type := String → Option (List Nat)

/-- `os.path.join(root, path)` for the relative paths used here. -/
def joinPath (root p : String) : String := root ++ "/" ++ p

/-- Content type inferred from the file extension (`mimetypes.guess_type`
restricted to the extensions this deployment serves). -/
def guessContentType (path : String) : Option String :=
  if path.endsWith ".html" then some "text/html"
  else if path.endsWith ".css" then some "text/css"
  else if path.endsWith ".js" then some "application/javascript"
  else none

/-- An HTTP response of the static-file logic.  The caching validator
(ETag) is represented by the bytes it is computed from. -/
structure Response where
  status : Nat
  contentType : Option String
  contentLength : Option Nat
  etagKey : Option (List Nat)
  body : List Nat
deriving Repr, DecidableEq

/-- Tornado's default error page for a 404, as bytes. -/
def errorBody404 : List Nat :=
  "<html><title>404: Not Found</title><body>404: Not Found</body></html>".toList.map Char.toNat

/-- The headers of a response (everything except the status line and
body). -/
def Response.headersOf (r : Response) : Option String × Option Nat × Option (List Nat) :=
  (r.contentType, r.contentLength, r.etagKey)

namespace StaticFileHandler

/-- `tornado.web.StaticFileHandler.get(path, include_body)` over root
directory `root`: resolve the file under the root; a missing file is a
404 with the default error page, an existing file a 200 with headers
derived from the file and the body included only when `include_body`
(the transport suppresses the body of the error page as well when the
method is HEAD, i.e. when `include_body` is false). -/
def get (fs : FS) (root : String) (path : String) (include_body : Bool) : Response :=
  match fs (joinPath root path) with
  | none =>
      { status := 404
        contentType := some "text/html"
        contentLength := some errorBody404.length
        etagKey := none
        body := if include_body then errorBody404 else [] }
  | some content =>
      { status := 200
        contentType := guessContentType (joinPath root path)
        contentLength := some content.length
        etagKey := some content
        body := if include_body then content else [] }

end StaticFileHandler

/-- `os.path.split` on POSIX, on character lists: cut just after the last
slash. -/
def splitAtLastSlash : List Char → List Char × List Char
  | [] => ([], [])
  | c :: cs =>
    if cs.contains '/' then
      let (h, t) := splitAtLastSlash cs
      (c :: h, t)
    else if c == '/' then ([c], cs)
    else ([], c :: cs)

/-- `os.path.split(p)`: split after the last slash, then strip trailing
slashes from the head unless the head is empty or all slashes. -/
def ospathSplit (p : String) : String × String :=
  let (h, t) := splitAtLastSlash p.toList
  let head := if h.all (fun c => c == '/') then h
              else (h.reverse.dropWhile (fun c => c == '/')).reverse
  (String.mk head, String.mk t)

namespace IndexHandler

/-- The state the handler's construction-time hook builds: the configured
full path split into a directory (which becomes the static root) and a
filename. -/
structure State where
  dirname : String
  filename : String
deriving Repr, DecidableEq

/-- The construction-time hook of `IndexHandler` (its Python method named
after initialization, lines 38-40): `os.path.split` the configured path
and hand the directory to the generic static handler as its root. -/
def setup (path : String) : State :=
  let (d, f) := ospathSplit path
  { dirname := d, filename := f }

/-- `IndexHandler.get(path, include_body)`: ignore the captured request
path and delegate to the generic static `get` for the fixed filename
under the stored directory. -/
def get (fs : FS) (st : State) (_path : String) (include_body : Bool) : Response :=
  StaticFileHandler.get fs st.dirname st.filename include_body

/-- `StaticFileHandler.head(path)` is inherited by `IndexHandler` and
calls `self.get(path, include_body=False)`, which dynamically dispatches
to the overridden `get` above. -/
def head (fs : FS) (st : State) (path : String) : Response :=
  get fs st path false

end IndexHandler

/-! ## Startup sequence of `main` -/

/-- The `momoko.Pool` constructed in `main`: a DSN string and a fixed
size.  Construction is a pure value; no connection attempt gates it. -/
structure Pool where
  dsn : String
  size : Nat
deriving Repr, DecidableEq

/-- Python `'%s' % v`: a missing setting (`None`) prints as `None`. -/
def pyStr : Option String → String
  | none => "None"
  | some s => s

/-- The DSN format string of lines 72-73. -/
def mkDsn (c : Config) : String :=
  "dbname=" ++ pyStr c.dbName ++ " user=" ++ pyStr c.dbUser ++
  " password=" ++ pyStr c.dbPass ++ " host=" ++ pyStr c.dbHost ++
  " port=" ++ toString c.dbPort

def mkPool (c : Config) : Pool := { dsn := mkDsn c, size := 1 }

/-- The `tornado.web.Application` built in `main`: the route table plus
the keyword options. -/
structure App where
  handlers : List (Pattern × Handler)
  debugFlag : Bool
  cookieSecret : Option String
deriving Repr, DecidableEq

def mkApp (c : Config) : App :=
  { handlers := routes, debugFlag := true, cookieSecret := c.cookieSecret }

/-- The resources a successful startup ends up with: the application, the
pool hung off it, and the TCP port the server listens on. -/
structure Running where
  app : App
  pool : Pool
  boundPort : Int
deriving Repr, DecidableEq

/-- The whole startup path: module-level configuration, then `main`.
Configuration failure is an uncaught exception; otherwise `main` builds
the application, the pool, and binds `PORT`. -/
def runStartup (env : Env) : Except PyError Running :=
  match loadConfig env with
  | .error e => .error e
  | .ok c => .ok { app := mkApp c, pool := mkPool c, boundPort := c.port }

/-- The states of the startup sequence that are actually reached. -/
inductive Step where
  | configured
  | routed
  | pooled
  | listening
  | serving
deriving Repr, DecidableEq

/-- The ordered list of startup states reached by a run: a configuration
failure aborts before any of them; otherwise the straight-line body of
`main` passes through all five in order. -/
def startupSteps (env : Env) : List Step :=
  match loadConfig env with
  | .error _ => []
  | .ok _ => [.configured, .routed, .pooled, .listening, .serving]

/-- The process exit: `some code` when the process terminates, `none`
when it enters the event loop and serves forever.  An uncaught Python
exception exits with status 1. -/
def processExit (env : Env) : Option Nat :=
  match loadConfig env with
  | .error _ => some 1
  | .ok _ => none

/-! ## Theorems -/

/-- A character list followed by a newline contains a newline. -/
theorem contains_newline_append (t : List Char) :
    (t ++ ['\n']).contains '\n' = true := by
  induction t with
  | nil => rfl
  | cons c cs ih => simp_all [List.contains, List.elem_cons]

/-- C2: constructing the fallback resolver with the full path
`client/index.html` splits it into directory `client` and filename
`index.html`, and every request through the fallback handler produces
exactly the response of a direct generic static request for filename
`index.html` under root `client`. -/
theorem c2_split_and_delegate :
    IndexHandler.setup "client/index.html" =
      { dirname := "client", filename := "index.html" } ∧
    ∀ (fs : FS) (p : String) (incl : Bool),
      IndexHandler.get fs (IndexHandler.setup "client/index.html") p incl =
      StaticFileHandler.get fs "client" "index.html" incl := by
  refine ⟨by decide, ?_⟩
  intro fs p incl
  rfl

/-- C6: for every request path reaching the fallback resolver, a HEAD
request produces the same status and headers as the corresponding GET
but an empty body. -/
theorem c6_head_matches_get (fs : FS) (st : IndexHandler.State) (p : String) :
    (IndexHandler.head fs st p).status = (IndexHandler.get fs st p true).status ∧
    (IndexHandler.head fs st p).headersOf = (IndexHandler.get fs st p true).headersOf ∧
    (IndexHandler.head fs st p).body = [] := by
  unfold IndexHandler.head IndexHandler.get StaticFileHandler.get Response.headersOf
  cases fs (joinPath st.dirname st.filename) <;> simp

/-- C7: every request path (HTTP request paths contain no newline,
including the empty path and paths without a leading slash) matches at
least one binding, because the final catch-all pattern matches any such
string; the no-match branch of dispatch is unreachable for this route
table. -/
theorem c7_no_match_unreachable (p : String)
    (hn : p.toList.contains '\n' = false) :
    (dispatch routes p).isSome = true := by
  have hn' : '\n' ∉ p.data := by simpa using hn
  have ht : patMatches .catchAll p = true := by
    simp only [patMatches, tailOK]
    simp
    exact Or.inl hn'
  simp only [dispatch, routes]
  rw [ht]
  split
  · rfl
  split
  · rfl
  split
  · rfl
  split
  · rfl
  split
  · rfl
  split
  · rfl
  split
  · rfl
  split
  · rfl
  rfl

/-- C7 witness at the empty path. -/
theorem c7_no_match_unreachable_witness :
    (dispatch routes "").isSome = true :=
  c7_no_match_unreachable "" (by decide)

/-- C1: a request path matching none of the five API patterns and none
of the three static prefixes is dispatched to the fallback resolver
(`IndexHandler` configured with `client/index.html`), and the fallback
response is identical for every captured sub-path. -/
theorem c1_fallback_dispatch (p : String)
    (hn : p.toList.contains '\n' = false)
    (h1 : patMatches (.apiLiteral "/api/user/auth") p = false)
    (h2 : patMatches (.apiLiteral "/api/user/login") p = false)
    (h3 : patMatches (.apiLiteral "/api/user/logout") p = false)
    (h4 : patMatches (.apiLiteral "/api/user/register") p = false)
    (h5 : patMatches (.apiLiteral "/api/sock") p = false)
    (hc : "/css/".toList.isPrefixOf p.toList = false)
    (hj : "/js/".toList.isPrefixOf p.toList = false)
    (hh : "/html/".toList.isPrefixOf p.toList = false) :
    dispatch routes p = some (.indexHandler "client/index.html") ∧
    ∀ (fs : FS) (q : String) (incl : Bool),
      IndexHandler.get fs (IndexHandler.setup "client/index.html") p incl =
      IndexHandler.get fs (IndexHandler.setup "client/index.html") q incl := by
  refine ⟨?_, fun fs q incl => rfl⟩
  have hn' : '\n' ∉ p.data := by simpa using hn
  have htail : tailOK p.data = true := by
    simp only [tailOK]
    simp
    exact Or.inl hn'
  have hc' : ¬ ("/css/".toList <+: p.toList) := by
    rw [← List.isPrefixOf_iff_prefix, hc]; simp
  have hj' : ¬ ("/js/".toList <+: p.toList) := by
    rw [← List.isPrefixOf_iff_prefix, hj]; simp
  have hh' : ¬ ("/html/".toList <+: p.toList) := by
    rw [← List.isPrefixOf_iff_prefix, hh]; simp
  simp only [patMatches] at h1 h2 h3 h4 h5
  simp at h1 h2 h3 h4 h5 hc' hj' hh'
  simp [dispatch, routes, patMatches, h1, h2, h3, h4, h5, hc', hj', hh', htail]

/-- C1 witness at the path `/foo/bar/baz`. -/
theorem c1_fallback_dispatch_witness :
    dispatch routes "/foo/bar/baz" = some (.indexHandler "client/index.html") :=
  (c1_fallback_dispatch "/foo/bar/baz" (by decide) (by decide) (by decide)
    (by decide) (by decide) (by decide) (by decide) (by decide) (by decide)).1

/-- C5: dispatch scans bindings in registration order and invokes the
first match: for bindings `[A, B, catchAll]` over two prefix patterns, a
request matching A is answered by A's handler (never reaching B or the
catch-all), and a request matching neither A nor B is answered by the
catch-all handler; moreover in this program's route table the five API
bindings precede the three static-prefix bindings, which precede the
catch-all. -/
theorem c5_first_match_order :
    (∀ (a b : String) (hA hB hC : Handler) (p : String),
        patMatches (.staticDir a) p = true →
        dispatch [(.staticDir a, hA), (.staticDir b, hB), (.catchAll, hC)] p
          = some hA) ∧
    (∀ (a b : String) (hA hB hC : Handler) (p : String),
        patMatches (.staticDir a) p = false →
        patMatches (.staticDir b) p = false →
        patMatches .catchAll p = true →
        dispatch [(.staticDir a, hA), (.staticDir b, hB), (.catchAll, hC)] p
          = some hC) ∧
    routes.map Prod.fst =
      [ .apiLiteral "/api/user/auth", .apiLiteral "/api/user/login",
        .apiLiteral "/api/user/logout", .apiLiteral "/api/user/register",
        .apiLiteral "/api/sock",
        .staticDir "/css/", .staticDir "/js/", .staticDir "/html/",
        .catchAll ] := by
  refine ⟨?_, ?_, rfl⟩
  · intro a b hA hB hC p hmatch
    simp [dispatch, hmatch]
  · intro a b hA hB hC p ha hb hcatch
    simp [dispatch, ha, hb, hcatch]

/-- C5 witness: a request matching the first prefix stops there, and one
matching neither prefix reaches the catch-all. -/
theorem c5_first_match_order_witness :
    dispatch [(.staticDir "/css/", .staticFileHandler "client/css"),
              (.staticDir "/js/", .staticFileHandler "client/js"),
              (.catchAll, .indexHandler "client/index.html")] "/css/a.css"
      = some (.staticFileHandler "client/css") ∧
    dispatch [(.staticDir "/css/", .staticFileHandler "client/css"),
              (.staticDir "/js/", .staticFileHandler "client/js"),
              (.catchAll, .indexHandler "client/index.html")] "/foo"
      = some (.indexHandler "client/index.html") :=
  ⟨(c5_first_match_order.1 "/css/" "/js/" (.staticFileHandler "client/css")
      (.staticFileHandler "client/js") (.indexHandler "client/index.html")
      "/css/a.css" (by decide)),
   (c5_first_match_order.2.1 "/css/" "/js/" (.staticFileHandler "client/css")
      (.staticFileHandler "client/js") (.indexHandler "client/index.html")
      "/foo" (by decide) (by decide) (by decide))⟩

/-- C3: when the `DB_PORT` environment variable is absent or not
numeric, startup raises an uncaught exception and exits with a non-zero
status before the route table, the pool, or the listening socket exist;
no listening state is ever reached. -/
theorem c3_db_port_abort (env : Env)
    (h : envGet env "DB_PORT" = none ∨
         ∃ s, envGet env "DB_PORT" = some s ∧ pyStrToInt s = none) :
    (∃ e, runStartup env = .error e) ∧
    processExit env = some 1 ∧
    Step.routed ∉ startupSteps env ∧
    Step.pooled ∉ startupSteps env ∧
    Step.listening ∉ startupSteps env := by
  have hload : ∃ e, loadConfig env = .error e := by
    unfold loadConfig
    cases hp : pyIntOfGetD 8000 (envGet env "PORT") with
    | error e => exact ⟨e, rfl⟩
    | ok v =>
      have hdb : ∃ e, pyIntOfGet (envGet env "DB_PORT") = .error e := by
        rcases h with h | ⟨s, hs, hbad⟩
        · exact ⟨.typeError, by simp [pyIntOfGet, h]⟩
        · exact ⟨.valueError, by simp [pyIntOfGet, hs, hbad]⟩
      obtain ⟨e, he⟩ := hdb
      exact ⟨e, by simp [he]⟩
  obtain ⟨e, he⟩ := hload
  refine ⟨⟨e, by simp [runStartup, he]⟩, by simp [processExit, he], ?_, ?_, ?_⟩ <;>
    simp [startupSteps, he]

/-- C3 witness: the empty environment has no `DB_PORT`, and startup
aborts. -/
theorem c3_db_port_abort_witness :
    (∃ e, runStartup [] = .error e) ∧
    processExit [] = some 1 ∧
    Step.routed ∉ startupSteps [] ∧
    Step.pooled ∉ startupSteps [] ∧
    Step.listening ∉ startupSteps [] :=
  c3_db_port_abort [] (Or.inl rfl)

/-- C4 counterexample: with only `DB_PORT` set, the required fields
`DB_HOST` and `COOKIE_SECRET` (among others) are absent from the
environment, yet startup succeeds and reaches the listening state — the
string-valued settings are not validated. -/
theorem c4_counterexample :
    envGet [("DB_PORT", "5432")] "DB_HOST" = none ∧
    envGet [("DB_PORT", "5432")] "COOKIE_SECRET" = none ∧
    startupSteps [("DB_PORT", "5432")] =
      [Step.configured, Step.routed, Step.pooled, Step.listening, Step.serving] := by
  refine ⟨rfl, rfl, ?_⟩
  rfl

/-- C4 (amended): only the numeric settings are validated at startup:
whenever the process reaches the listening state, `DB_PORT` was present
and numeric, and `PORT`, if present, was numeric; the string-valued
settings (`DB_HOST`, `DB_NAME`, `DB_USER`, `DB_PASS`, `FB_API_KEY`,
`FB_SECRET`, `COOKIE_SECRET`) are read with a `None` fallback and their
absence does not prevent startup. -/
theorem c4_only_ports_validated (env : Env)
    (h : Step.listening ∈ startupSteps env) :
    (∃ s n, envGet env "DB_PORT" = some s ∧ pyStrToInt s = some n) ∧
    (∀ s, envGet env "PORT" = some s → ∃ n, pyStrToInt s = some n) := by
  have hok : ∃ c, loadConfig env = .ok c := by
    unfold startupSteps at h
    cases hl : loadConfig env with
    | error e => rw [hl] at h; simp at h
    | ok c => exact ⟨c, rfl⟩
  obtain ⟨c, hl⟩ := hok
  unfold loadConfig at hl
  cases hp : pyIntOfGetD 8000 (envGet env "PORT") with
  | error e => rw [hp] at hl; simp at hl
  | ok v =>
    rw [hp] at hl
    cases hd : pyIntOfGet (envGet env "DB_PORT") with
    | error e => rw [hd] at hl; simp at hl
    | ok w =>
      constructor
      · cases hdb : envGet env "DB_PORT" with
        | none => rw [hdb] at hd; simp [pyIntOfGet] at hd
        | some s =>
          rw [hdb] at hd
          cases hv : pyStrToInt s with
          | none => simp [pyIntOfGet, hv] at hd
          | some n => exact ⟨s, n, rfl, hv⟩
      · intro s hs
        rw [hs] at hp
        cases hv : pyStrToInt s with
        | none => simp [pyIntOfGetD, hv] at hp
        | some n => exact ⟨n, rfl⟩

/-- C4 (amended) witness: an environment with a numeric `DB_PORT` and no
`PORT` reaches listening, and the amended invariant holds of it. -/
theorem c4_only_ports_validated_witness :
    (∃ s n, envGet [("DB_PORT", "5432")] "DB_PORT" = some s ∧
      pyStrToInt s = some n) ∧
    (∀ s, envGet [("DB_PORT", "5432")] "PORT" = some s →
      ∃ n, pyStrToInt s = some n) :=
  c4_only_ports_validated [("DB_PORT", "5432")] (by decide)

/-- C8: startup performs its steps in the fixed order configuration,
route-table construction, pool construction, port bind, event loop;
given a successful configuration the remaining sequence is straight-line
and pool construction is a pure value derived from the configuration (no
connectivity check can fail it). -/
theorem c8_startup_order (env : Env) (c : Config)
    (h : loadConfig env = .ok c) :
    startupSteps env =
      [Step.configured, Step.routed, Step.pooled, Step.listening, Step.serving] ∧
    runStartup env = .ok { app := mkApp c, pool := mkPool c, boundPort := c.port } ∧
    mkPool c = { dsn := mkDsn c, size := 1 } := by
  refine ⟨by simp [startupSteps, h], by simp [runStartup, h], rfl⟩

/-- C8 witness at a concrete environment. -/
theorem c8_startup_order_witness :
    startupSteps [("DB_PORT", "5432")] =
      [Step.configured, Step.routed, Step.pooled, Step.listening, Step.serving] :=
  (c8_startup_order [("DB_PORT", "5432")]
    { port := 8000, dbHost := none, dbName := none, dbUser := none,
      dbPort := 5432, dbPass := none, fbApiKey := none, fbSecret := none,
      cookieSecret := none } rfl).1

/-- C9: the port the server binds equals the numeric value of the `PORT`
environment variable when it is set, and 8000 when it is absent. -/
theorem c9_listen_port (env : Env) (c : Config)
    (h : loadConfig env = .ok c) :
    (runStartup env).map Running.boundPort = .ok c.port ∧
    (match envGet env "PORT" with
     | none => c.port = 8000
     | some s => pyStrToInt s = some c.port) := by
  refine ⟨by simp [runStartup, h, Except.map], ?_⟩
  unfold loadConfig at h
  cases hp : pyIntOfGetD 8000 (envGet env "PORT") with
  | error e => rw [hp] at h; simp at h
  | ok v =>
    rw [hp] at h
    cases hd : pyIntOfGet (envGet env "DB_PORT") with
    | error e => rw [hd] at h; simp at h
    | ok w =>
      rw [hd] at h
      simp at h
      have hport : c.port = v := by rw [← h]
      cases hs : envGet env "PORT" with
      | none =>
        rw [hs] at hp
        simp [pyIntOfGetD] at hp
        show c.port = 8000
        omega
      | some s =>
        rw [hs] at hp
        cases hv : pyStrToInt s with
        | none => simp [pyIntOfGetD, hv] at hp
        | some n =>
          simp [pyIntOfGetD, hv] at hp
          show pyStrToInt s = some c.port
          simp [hv, hport]
          omega

/-- C9 witness: with `PORT=9000` set, the bound port is 9000. -/
theorem c9_listen_port_witness :
    (runStartup [("PORT", "9000"), ("DB_PORT", "1")]).map Running.boundPort
      = .ok (9000 : Int) :=
  (c9_listen_port [("PORT", "9000"), ("DB_PORT", "1")]
    { port := 9000, dbHost := none, dbName := none, dbUser := none,
      dbPort := 1, dbPass := none, fbApiKey := none, fbSecret := none,
      cookieSecret := none } rfl).1

/-- C10: a `PORT` environment variable set to a non-numeric value aborts
startup with a `ValueError` from `int()` before the route table, pool or
socket exist; the malformed optional setting is not silently replaced by
the default. -/
theorem c10_port_malformed (env : Env) (s : String)
    (hs : envGet env "PORT" = some s) (hbad : pyStrToInt s = none) :
    loadConfig env = .error PyError.valueError ∧
    runStartup env = .error PyError.valueError ∧
    processExit env = some 1 ∧
    startupSteps env = [] := by
  have hp : pyIntOfGetD 8000 (envGet env "PORT") = .error .valueError := by
    rw [hs]; simp [pyIntOfGetD, hbad]
  have hl : loadConfig env = .error .valueError := by
    unfold loadConfig
    rw [hp]
  exact ⟨hl, by simp [runStartup, hl], by simp [processExit, hl],
    by simp [startupSteps, hl]⟩

/-- C10 witness: `PORT=abc` aborts startup. -/
theorem c10_port_malformed_witness :
    loadConfig [("PORT", "abc"), ("DB_PORT", "5432")] = .error PyError.valueError ∧
    runStartup [("PORT", "abc"), ("DB_PORT", "5432")] = .error PyError.valueError ∧
    processExit [("PORT", "abc"), ("DB_PORT", "5432")] = some 1 ∧
    startupSteps [("PORT", "abc"), ("DB_PORT", "5432")] = [] :=
  c10_port_malformed [("PORT", "abc"), ("DB_PORT", "5432")] "abc" rfl rfl

end Shapy
